import Mathlib

/-!
Shallow embedding of the docdrip-api document pipeline
(`app/services/mixins/document_mixin_service.py`), together with proofs of
the behavioural properties of `process_document`, `validate_document`,
`get_supported_extensions`, `_get_file_metadata` and `_is_file_supported`.

Python strings are modelled as Lean `String`s; `str.lower`, `str.strip`,
`str.split` and `in` are modelled by structurally recursive functions on
the character list (ASCII case folding and ASCII whitespace, which agree
with Python on every string the pipeline compares: the registry entries,
the fixed message texts, and filename extensions).  Byte buffers are
`List Nat`.  The upload stream and the external converter are effectful
collaborators: they are modelled by explicit state passing (`StreamState`)
plus behaviour oracles (`ReadBehavior`, one per textual
`await file.read()` call site, and a converter function returning a
`ConvResult`).
-/

namespace DocDrip

/-- Bytes of an upload's content. -/
abbrev Bytes := List Nat

/-- An uploaded file resource as FastAPI's `UploadFile` exposes it:
`filename` may be `None` (`none`) or empty, and the resource wraps a full
underlying byte content that `read()` serves from the current position. -/
structure UploadFile where
  filename : Option String
  content : Bytes
deriving DecidableEq

/-- State of the upload stream: current position, plus counters for the
number of `read()` calls attempted and `seek(0)` calls performed (the
counters make "never reads" and "no reset happened" observable). -/
structure StreamState where
  pos : Nat
  reads : Nat
  seeks : Nat
deriving DecidableEq

/-- Behaviour of one `await file.read()` call: succeed, or throw with the
given cause description (`str(e)`). -/
inductive ReadBehavior where
  | ok
  | err (msg : String)
deriving DecidableEq

/-- Result of one call to the external converter
`self.markdown_processor.convert(file_io)`:
`result text` is a truthy result object whose `text_content` is `text`
(an empty `text` models a falsy `text_content`), `noResult` is a falsy
result object (or one whose `text_content` is `None`), and `raises msg`
is a thrown exception with `str(e) = msg`. -/
inductive ConvResult where
  | result (text : String)
  | noResult
  | raises (msg : String)
deriving DecidableEq

/-- A converter behaviour: a function of the filename hint and the byte
content handed to `MarkItDown.convert`. -/
abbrev Converter := String → Bytes → ConvResult

/-- `await file.read()`: on success it returns the bytes from the current
position and leaves the position at end of stream; on failure the position
is unchanged.  Either way the call is counted. -/
def streamRead (content : Bytes) (b : ReadBehavior) (st : StreamState) :
    Except String Bytes × StreamState :=
  match b with
  | .ok => (.ok (content.drop st.pos),
            { pos := content.length, reads := st.reads + 1, seeks := st.seeks })
  | .err m => (.error m, { st with reads := st.reads + 1 })

/-- `await file.seek(0)`: reset the position to the start of the stream. -/
def streamSeek0 (st : StreamState) : StreamState :=
  { st with pos := 0, seeks := st.seeks + 1 }

/-- The two Python error kinds surfaced by the service: `valueError`
embeds `ValueError` (the spec's `InvalidInput`) and `exception` embeds a
bare `Exception` (the spec's `ConversionFailure`). -/
inductive DocError where
  | valueError (msg : String)
  | exception (msg : String)
deriving DecidableEq

deriving instance DecidableEq for Except

/-- `DocumentMixinService.MAX_FILE_SIZE`: 10 MiB. -/
def MAX_FILE_SIZE : Nat := 10 * 1024 * 1024

/-- `DocumentMixinService.SUPPORTED_EXTENSIONS` (a Python `set`; modelled
as the list of its elements, membership being the only set operation the
code uses besides `sorted`). -/
def SUPPORTED_EXTENSIONS : List String :=
  [".pdf", ".docx", ".doc", ".txt", ".md", ".html", ".htm",
   ".xlsx", ".xls", ".pptx", ".ppt", ".rtf"]

/-- Strict lexicographic comparison of character lists by code point —
Python's `<` on strings, restricted as always to the ASCII data the
service sorts. -/
def ltChars : List Char → List Char → Bool
  | _, [] => false
  | [], _ :: _ => true
  | a :: as, b :: bs =>
      if a.toNat < b.toNat then true
      else if b.toNat < a.toNat then false
      else ltChars as bs

/-- Insert a string into an ascending list (code-point order, which is
Python's `sorted` order on these ASCII strings). -/
def insertSorted (a : String) : List String → List String
  | [] => [a]
  | b :: bs =>
      if ltChars a.toList b.toList || (a == b) then a :: b :: bs
      else b :: insertSorted a bs

/-- Python `sorted` on a collection of strings. -/
def sortStrings (l : List String) : List String :=
  l.foldr insertSorted []

/-- Python `sep.join(pieces)`. -/
def joinWith (sep : String) : List String → String
  | [] => ""
  | [a] => a
  | a :: rest => a ++ sep ++ joinWith sep rest

/-- `DocumentMixinService.get_supported_extensions`:
`sorted(self.SUPPORTED_EXTENSIONS)`. -/
def get_supported_extensions : List String :=
  sortStrings SUPPORTED_EXTENSIONS

/-- Python `str.split(sep)` for a one-character separator, on character
lists (always returns at least one piece, like Python's). -/
def splitOnChar (sep : Char) : List Char → List (List Char)
  | [] => [[]]
  | c :: cs =>
      match splitOnChar sep cs with
      | [] => [[]]
      | g :: gs => if c == sep then [] :: g :: gs else (c :: g) :: gs

/-- Python `str.lower`, restricted to ASCII case folding (all strings the
service compares after lowering are ASCII). -/
def lowerChars (cs : List Char) : List Char :=
  cs.map Char.toLower

/-- Python `str.strip()` over the ASCII whitespace characters. -/
def pyStrip (s : String) : String :=
  String.mk (((s.toList.dropWhile Char.isWhitespace).reverse.dropWhile
      Char.isWhitespace).reverse)

/-- Final path component of a path string, as
`pathlib.PurePosixPath(s).name`: split on the separator, discard empty and
"." components, and take the last component (empty if none remain). -/
def pathName (s : String) : List Char :=
  (((splitOnChar '/' s.toList).filter
      (fun c => !(c.isEmpty) && !(c == ['.']))).getLast?).getD []

/-- Index of the last occurrence of a character in a list, if any. -/
def lastIdx (ch : Char) (cs : List Char) : Option Nat :=
  if ch ∈ cs then some (cs.length - 1 - (cs.reverse.indexOf ch)) else none

/-- `pathlib` suffix of a path: with `name` the final component and `i` the
index of its last dot, the substring `name[i:]` provided `0 < i < len - 1`,
else empty (so dotfiles such as ".pdf" and names with a trailing dot have
no suffix). -/
def pathSuffix (s : String) : List Char :=
  let cs := pathName s
  match lastIdx '.' cs with
  | none => []
  | some i => if 0 < i ∧ i < cs.length - 1 then cs.drop i else []

/-- `DocumentMixinService._is_file_supported`:
`Path(filename).suffix.lower() in self.SUPPORTED_EXTENSIONS`. -/
def isFileSupported (filename : String) : Bool :=
  SUPPORTED_EXTENSIONS.contains (String.mk (lowerChars (pathSuffix filename)))

/-- Python `round(x, 2)` on an exact nonnegative rational value of `x`
(every ratio the service rounds is `size/2^20` with `size < 2^53`, exact in
binary floating point, so float rounding is decimal rounding of the
rational, half to even): the nearest multiple of 1/100, ties to the even
multiple. -/
def round2 (q : ℚ) : ℚ :=
  let s : ℚ := q * 100
  let f : ℤ := Int.floor s
  let frac : ℚ := s - f
  let n : ℤ :=
    if frac < 1/2 then f
    else if 1/2 < frac then f + 1
    else if f % 2 = 0 then f else f + 1
  (n : ℚ) / 100

/-- Hundredths of a MiB after Python's `round(size_bytes / (1024*1024), 2)`
— the same rounding carried out in `Nat` arithmetic, so that it evaluates
inside the kernel (`sizeMB_eq_round2` proves it agrees with `round2`). -/
def mbHundredths (size_bytes : Nat) : Nat :=
  let num := size_bytes * 100
  let den := 1024 * 1024
  let f := num / den
  let r := num % den
  if 2 * r < den then f
  else if den < 2 * r then f + 1
  else if f % 2 = 0 then f else f + 1

/-- The `size_mb` value the service stores for a given byte count. -/
def sizeMB (size_bytes : Nat) : ℚ :=
  Rat.divInt (mbHundredths size_bytes) 100

/-- `FileMetadata` (pydantic model in `app/models/document_model.py`);
`size_mb` is carried as the exact rational the Python float denotes. -/
structure FileMetadata where
  filename : String
  size_bytes : Nat
  size_mb : ℚ
  file_extension : String
  is_supported : Bool
deriving DecidableEq

/-- `ProcessDocumentResponse` (pydantic model). -/
structure ProcessDocumentResponse where
  markdown : String
  metadata : FileMetadata
deriving DecidableEq

/-- `ValidationResponse` (pydantic model); `filename`,
`is_supported_format` and `error` default to `None`. -/
structure ValidationResponse where
  is_valid : Bool
  filename : Option String := none
  is_supported_format : Option Bool := none
  error : Option String := none
deriving DecidableEq

/-- The metadata `file_extension` field:
`file.filename.split('.')[-1].lower() if '.' in file.filename else ''`. -/
def metaExtension (filename : String) : String :=
  if '.' ∈ filename.toList then
    String.mk (lowerChars (((splitOnChar '.' filename.toList).getLast?).getD []))
  else ""

/-- `DocumentMixinService._get_file_metadata`: re-read the stream to
measure the size, reset the position, and assemble the metadata.  A read
failure propagates (and then no seek is performed). -/
def getFileMetadata (fn : String) (content : Bytes) (rb : ReadBehavior)
    (st : StreamState) : Except String FileMetadata × StreamState :=
  match streamRead content rb st with
  | (.error m, st') => (.error m, st')
  | (.ok file_content, st') =>
      let file_size := file_content.length
      let st'' := streamSeek0 st'
      (.ok { filename := fn
             size_bytes := file_size
             size_mb := sizeMB file_size
             file_extension := metaExtension fn
             is_supported := isFileSupported fn }, st'')

/-- The `try` block of `process_document` that wraps conversion and
metadata assembly: any exception raised inside it — including the
"Conversion resulted in empty content." one raised by the emptiness check
itself, and any failure of the metadata re-read — is caught by the block's
own handler and re-raised as "Error during conversion: <cause>". -/
def convertStage (fn : String) (content : Bytes) (file_content : Bytes)
    (rb2 : ReadBehavior) (conv : Converter) (st : StreamState) :
    Except DocError ProcessDocumentResponse × StreamState :=
  match conv fn file_content with
  | .raises m => (.error (.exception ("Error during conversion: " ++ m)), st)
  | .noResult =>
      (.error (.exception "Error during conversion: Conversion resulted in empty content."), st)
  | .result text =>
      if text = "" then
        (.error (.exception "Error during conversion: Conversion resulted in empty content."), st)
      else
        match getFileMetadata fn content rb2 st with
        | (.error m, st') =>
            (.error (.exception ("Error during conversion: " ++ m)), st')
        | (.ok file_metadata, st') =>
            (.ok { markdown := pyStrip text, metadata := file_metadata }, st')

/-- Steps 3 onwards of `process_document`: read the content (with the
`finally: await file.seek(0)` reset on both outcomes), run the emptiness
and size checks, then enter the conversion stage. -/
def afterExtensionCheck (fn : String) (content : Bytes)
    (rb1 rb2 : ReadBehavior) (conv : Converter) (st : StreamState) :
    Except DocError ProcessDocumentResponse × StreamState :=
  match streamRead content rb1 st with
  | (.error m, st1) =>
      (.error (.exception ("Error reading file: " ++ m)), streamSeek0 st1)
  | (.ok file_content, st1) =>
      let st2 := streamSeek0 st1
      if file_content.length = 0 then
        (.error (.valueError "File content is empty."), st2)
      else if MAX_FILE_SIZE < file_content.length then
        (.error (.valueError
          ("File size (" ++ toString file_content.length ++
           " bytes) exceeds maximum allowed size (" ++ toString MAX_FILE_SIZE ++ " bytes).")), st2)
      else
        convertStage fn content file_content rb2 conv st2

/-- `DocumentMixinService.process_document`.  `rb1` is the behaviour of the
step-3 read, `rb2` of the metadata re-read, `conv` of the external
converter; the result is returned together with the final stream state. -/
def process_document (file : Option UploadFile) (rb1 rb2 : ReadBehavior)
    (conv : Converter) (st : StreamState) :
    Except DocError ProcessDocumentResponse × StreamState :=
  match file with
  | none => (.error (.valueError "Valid file with filename must be provided."), st)
  | some f =>
    match f.filename with
    | none => (.error (.valueError "Valid file with filename must be provided."), st)
    | some fn =>
      if fn = "" then
        (.error (.valueError "Valid file with filename must be provided."), st)
      else
        let file_extension := String.mk (lowerChars (pathSuffix fn))
        if SUPPORTED_EXTENSIONS.contains file_extension then
          afterExtensionCheck fn f.content rb1 rb2 conv st
        else
          (.error (.valueError
            ("Unsupported file format: " ++ file_extension ++ ". Supported formats: " ++
             joinWith ", " (sortStrings SUPPORTED_EXTENSIONS))), st)

/-- `DocumentMixinService.validate_document`. -/
def validate_document (file : Option UploadFile) : ValidationResponse :=
  match file with
  | none =>
      { is_valid := false
        error := some "File must be provided with a valid filename." }
  | some f =>
    match f.filename with
    | none =>
        { is_valid := false
          error := some "File must be provided with a valid filename." }
    | some fn =>
      if fn = "" then
        { is_valid := false
          error := some "File must be provided with a valid filename." }
      else
        let is_supported := isFileSupported fn
        let error_msg : Option String :=
          if is_supported then none
          else some ("Unsupported file format. Supported formats: " ++
                     joinWith ", " get_supported_extensions)
        { is_valid := is_supported
          filename := some fn
          is_supported_format := some is_supported
          error := error_msg }

/-- Modelled from the spec (glossary): the claim C2 reading of an
extension — "lowercase suffix of a filename after the final dot; empty if
none" — membership-checked, case-insensitively, against the dot-prefixed
Format Registry. -/
def specExtensionSupported (filename : String) : Bool :=
  if '.' ∈ filename.toList then
    SUPPORTED_EXTENSIONS.contains
      (String.mk ('.' :: lowerChars (((splitOnChar '.' filename.toList).getLast?).getD [])))
  else false

/-! Unfolding lemmas for the branches of the pipeline, shared by the claim
theorems below. -/

/-- The service's inline extension check in `process_document` is the same
computation as `_is_file_supported`. -/
theorem inline_check_eq (fn : String) :
    SUPPORTED_EXTENSIONS.contains (String.mk (lowerChars (pathSuffix fn))) =
      isFileSupported fn := rfl

/-- Step 1 rejection: a missing upload, a `None` filename and an empty
filename all fail the presence check without touching the stream. -/
theorem process_presence_fail (file : Option UploadFile)
    (h : file = none ∨ (∃ c, file = some ⟨none, c⟩) ∨ ∃ c, file = some ⟨some "", c⟩)
    (rb1 rb2 : ReadBehavior) (conv : Converter) (st : StreamState) :
    process_document file rb1 rb2 conv st =
      (.error (.valueError "Valid file with filename must be provided."), st) := by
  rcases h with h | ⟨c, h⟩ | ⟨c, h⟩ <;> subst h <;> simp [process_document]

/-- Step 2 rejection: an unsupported extension fails before any stream
operation. -/
theorem process_unsupported (fn : String) (c : Bytes)
    (h1 : fn ≠ "") (h2 : isFileSupported fn = false)
    (rb1 rb2 : ReadBehavior) (conv : Converter) (st : StreamState) :
    process_document (some ⟨some fn, c⟩) rb1 rb2 conv st =
      (.error (.valueError
        ("Unsupported file format: " ++ String.mk (lowerChars (pathSuffix fn)) ++
         ". Supported formats: " ++ joinWith ", " (sortStrings SUPPORTED_EXTENSIONS))), st) := by
  have h2' : String.mk (lowerChars (pathSuffix fn)) ∉ SUPPORTED_EXTENSIONS := by
    simpa [isFileSupported] using h2
  simp [process_document, h1, h2']

/-- Step 2 passage: a supported extension hands control to the read /
validate / convert stage. -/
theorem process_supported (fn : String) (c : Bytes)
    (h1 : fn ≠ "") (h2 : isFileSupported fn = true)
    (rb1 rb2 : ReadBehavior) (conv : Converter) (st : StreamState) :
    process_document (some ⟨some fn, c⟩) rb1 rb2 conv st =
      afterExtensionCheck fn c rb1 rb2 conv st := by
  have h2' : String.mk (lowerChars (pathSuffix fn)) ∈ SUPPORTED_EXTENSIONS := by
    simpa [isFileSupported] using h2
  simp [process_document, h1, h2']

/-- Step 3, read failure: the read error is wrapped and the stream is
still reset by the `finally` block. -/
theorem afterExt_readErr (fn : String) (c : Bytes) (m : String)
    (rb2 : ReadBehavior) (conv : Converter) (st : StreamState) :
    afterExtensionCheck fn c (.err m) rb2 conv st =
      (.error (.exception ("Error reading file: " ++ m)),
       ⟨0, st.reads + 1, st.seeks + 1⟩) := by
  simp [afterExtensionCheck, streamRead, streamSeek0]

/-- Step 4: an empty read fails with the empty-content error, stream
already reset. -/
theorem afterExt_empty (fn : String) (c : Bytes)
    (rb2 : ReadBehavior) (conv : Converter) (st : StreamState)
    (h : (c.drop st.pos).length = 0) :
    afterExtensionCheck fn c .ok rb2 conv st =
      (.error (.valueError "File content is empty."),
       ⟨0, st.reads + 1, st.seeks + 1⟩) := by
  simp [afterExtensionCheck, streamRead, streamSeek0, h]

/-- Step 5: an oversized read fails with the size error, stream already
reset. -/
theorem afterExt_tooLarge (fn : String) (c : Bytes)
    (rb2 : ReadBehavior) (conv : Converter) (st : StreamState)
    (h : MAX_FILE_SIZE < (c.drop st.pos).length) :
    afterExtensionCheck fn c .ok rb2 conv st =
      (.error (.valueError
        ("File size (" ++ toString (c.drop st.pos).length ++
         " bytes) exceeds maximum allowed size (" ++ toString MAX_FILE_SIZE ++ " bytes).")),
       ⟨0, st.reads + 1, st.seeks + 1⟩) := by
  have h' : MAX_FILE_SIZE < c.length - st.pos := by
    simpa using h
  have h0' : ¬ (c.length - st.pos = 0) := by omega
  simp [afterExtensionCheck, streamRead, streamSeek0, h0', h']

/-- Steps 4 and 5 passage: non-empty content within the limit reaches the
conversion stage with the stream reset. -/
theorem afterExt_toConvert (fn : String) (c : Bytes)
    (rb2 : ReadBehavior) (conv : Converter) (st : StreamState)
    (h0 : (c.drop st.pos).length ≠ 0)
    (h1 : (c.drop st.pos).length ≤ MAX_FILE_SIZE) :
    afterExtensionCheck fn c .ok rb2 conv st =
      convertStage fn c (c.drop st.pos) rb2 conv ⟨0, st.reads + 1, st.seeks + 1⟩ := by
  have h0' : ¬ (c.length - st.pos = 0) := by
    simpa using h0
  have h1' : ¬ MAX_FILE_SIZE < c.length - st.pos := by
    simpa using h1
  simp [afterExtensionCheck, streamRead, streamSeek0, h0', h1']

/-- Step 6, converter exception: wrapped, state untouched by this stage. -/
theorem convertStage_raises (fn : String) (c fc : Bytes) (m : String)
    (rb2 : ReadBehavior) (conv : Converter) (st : StreamState)
    (h : conv fn fc = .raises m) :
    convertStage fn c fc rb2 conv st =
      (.error (.exception ("Error during conversion: " ++ m)), st) := by
  simp [convertStage, h]

/-- Step 6, falsy converter result: the inner empty-content exception is
caught by the same handler and re-wrapped. -/
theorem convertStage_noResult (fn : String) (c fc : Bytes)
    (rb2 : ReadBehavior) (conv : Converter) (st : StreamState)
    (h : conv fn fc = .noResult) :
    convertStage fn c fc rb2 conv st =
      (.error (.exception "Error during conversion: Conversion resulted in empty content."), st) := by
  simp [convertStage, h]

/-- Step 6, empty text body: same re-wrapped empty-content failure. -/
theorem convertStage_emptyText (fn : String) (c fc : Bytes)
    (rb2 : ReadBehavior) (conv : Converter) (st : StreamState)
    (h : conv fn fc = .result "") :
    convertStage fn c fc rb2 conv st =
      (.error (.exception "Error during conversion: Conversion resulted in empty content."), st) := by
  simp [convertStage, h]

/-- Steps 7 and 8: a non-empty text body leads to the metadata re-read;
when that read succeeds the response is assembled and the stream reset. -/
theorem convertStage_success (fn : String) (c fc : Bytes) (t : String)
    (conv : Converter) (st : StreamState)
    (h : conv fn fc = .result t) (ht : t ≠ "") :
    convertStage fn c fc .ok conv st =
      (.ok { markdown := pyStrip t
             metadata :=
               { filename := fn
                 size_bytes := (c.drop st.pos).length
                 size_mb := sizeMB (c.drop st.pos).length
                 file_extension := metaExtension fn
                 is_supported := isFileSupported fn } },
       ⟨0, st.reads + 1, st.seeks + 1⟩) := by
  simp [convertStage, h, ht, getFileMetadata, streamRead, streamSeek0]

/-- Step 7 failure: a failing metadata re-read is caught by the conversion
handler; no seek follows the failed read. -/
theorem convertStage_metadataErr (fn : String) (c fc : Bytes) (t m : String)
    (conv : Converter) (st : StreamState)
    (h : conv fn fc = .result t) (ht : t ≠ "") :
    convertStage fn c fc (.err m) conv st =
      (.error (.exception ("Error during conversion: " ++ m)),
       { st with reads := st.reads + 1 }) := by
  simp [convertStage, h, ht, getFileMetadata, streamRead]

/-! Decimal rounding: the kernel-evaluable `Nat` computation used in the
metadata model agrees with the mathematical half-to-even rounding. -/

theorem half_lt_iff (r D : ℕ) (hD : 0 < D) :
    ((r : ℚ) / ((D : ℕ) : ℚ) < 1/2) ↔ 2 * r < D := by
  rw [div_lt_div_iff (by exact_mod_cast hD : (0:ℚ) < ((D:ℕ):ℚ)) (by norm_num : (0:ℚ) < 2)]
  constructor
  · intro h
    have h' : ((2 * r : ℕ) : ℚ) < ((D : ℕ) : ℚ) := by push_cast; linarith
    exact_mod_cast h'
  · intro h
    have h' : ((2 * r : ℕ) : ℚ) < ((D : ℕ) : ℚ) := by exact_mod_cast h
    push_cast at h'
    linarith

theorem half_gt_iff (r D : ℕ) (hD : 0 < D) :
    ((1:ℚ)/2 < (r : ℚ) / ((D : ℕ) : ℚ)) ↔ D < 2 * r := by
  rw [div_lt_div_iff (by norm_num : (0:ℚ) < 2) (by exact_mod_cast hD : (0:ℚ) < ((D:ℕ):ℚ))]
  constructor
  · intro h
    have h' : ((D : ℕ) : ℚ) < ((2 * r : ℕ) : ℚ) := by push_cast; linarith
    exact_mod_cast h'
  · intro h
    have h' : ((D : ℕ) : ℚ) < ((2 * r : ℕ) : ℚ) := by exact_mod_cast h
    push_cast at h'
    linarith

theorem floorFrac (M D : ℕ) (hD : 0 < D) :
    ((M : ℚ) / ((D : ℕ) : ℚ)) - (((M / D : ℕ) : ℤ) : ℚ)
      = ((M % D : ℕ) : ℚ) / ((D : ℕ) : ℚ) := by
  have hD' : ((D : ℕ) : ℚ) ≠ 0 := by exact_mod_cast hD.ne'
  have hdm : ((M : ℕ) : ℚ) = ((D : ℕ) : ℚ) * ((M / D : ℕ) : ℚ) + ((M % D : ℕ) : ℚ) := by
    exact_mod_cast (Nat.div_add_mod M D).symm
  rw [eq_div_iff hD', sub_mul, div_mul_cancel₀ _ hD']
  have hcc : (((M / D : ℕ) : ℤ) : ℚ) = ((M / D : ℕ) : ℚ) := by
    exact_mod_cast rfl
  rw [hcc]
  linear_combination hdm

theorem sizeMB_eq_round2 (L : ℕ) :
    sizeMB L = round2 ((L : ℚ) / (1024 * 1024)) := by
  have e1 : (L : ℚ) / (1024 * 1024) * 100 =
      ((L * 100 : ℕ) : ℚ) / ((1024 * 1024 : ℕ) : ℚ) := by
    push_cast
    ring
  have e2 : Int.floor (((L * 100 : ℕ) : ℚ) / ((1024 * 1024 : ℕ) : ℚ)) =
      ((L * 100 / (1024 * 1024) : ℕ) : ℤ) := by
    rw [Rat.floor_natCast_div_natCast]
    exact (Int.ofNat_div _ _).symm
  have e3 := floorFrac (L * 100) (1024 * 1024) (by norm_num)
  have hlt := half_lt_iff (L * 100 % (1024 * 1024)) (1024 * 1024) (by norm_num)
  have hgt := half_gt_iff (L * 100 % (1024 * 1024)) (1024 * 1024) (by norm_num)
  have hpar : ((((L * 100 / (1024 * 1024) : ℕ) : ℤ)) % 2 = 0)
      ↔ ((L * 100 / (1024 * 1024)) % 2 = 0) := by
    omega
  simp only [round2, sizeMB, mbHundredths]
  rw [e1, e2, e3, Rat.divInt_eq_div]
  simp only [hlt, hgt, hpar]
  split_ifs <;> (push_cast ; ring)

/-! Claim theorems. -/

theorem afterExt_pos (fn : String) (c : Bytes) (rb1 rb2 : ReadBehavior)
    (conv : Converter) (st : StreamState) :
    (afterExtensionCheck fn c rb1 rb2 conv st).2.pos = 0 := by
  cases rb1 with
  | err m => simp [afterExtensionCheck, streamRead, streamSeek0]
  | ok =>
    simp only [afterExtensionCheck, streamRead, streamSeek0]
    split_ifs with h0 hL
    · rfl
    · rfl
    · rcases hc : conv fn (c.drop st.pos) with t | _ | m
      · simp only [convertStage, hc]
        split_ifs with ht
        · rfl
        · cases rb2 with
          | ok => simp [getFileMetadata, streamRead, streamSeek0]
          | err m2 => simp [getFileMetadata, streamRead]
      · simp [convertStage, hc]
      · simp [convertStage, hc]

/-- C4: for every upload on which `process_document` reaches step 3 (the
filename is present, non-empty, and its extension is supported), the
stream position is 0 in the final state — on the success path, on read
failure, on the empty-content and size failures, and on conversion or
metadata failure alike. -/
theorem C4_stream_reset (fn : String) (c : Bytes) (rb1 rb2 : ReadBehavior)
    (conv : Converter) (st : StreamState)
    (h1 : fn ≠ "") (h2 : isFileSupported fn = true) :
    (process_document (some ⟨some fn, c⟩) rb1 rb2 conv st).2.pos = 0 := by
  rw [process_supported fn c h1 h2]
  exact afterExt_pos fn c rb1 rb2 conv st

/-- C4 witness: a concrete run (converter throwing) ends with the stream
at position 0. -/
theorem C4_stream_reset_witness :
    (process_document (some ⟨some "report.pdf", [1, 2, 3]⟩) .ok .ok
      (fun _ _ => .raises "boom") ⟨0, 0, 0⟩).2.pos = 0 :=
  C4_stream_reset "report.pdf" [1, 2, 3] .ok .ok (fun _ _ => .raises "boom")
    ⟨0, 0, 0⟩ (by decide) (by decide)

/-- C9: `validate_document` is total by construction and always returns
one of the documented result shapes: a valid result with no error, or an
invalid one carrying an error message. -/
theorem C9_validate_total (file : Option UploadFile) :
    ((validate_document file).is_valid = true ∧ (validate_document file).error = none) ∨
    ((validate_document file).is_valid = false ∧ ∃ m, (validate_document file).error = some m) := by
  rcases file with _ | ⟨fnOpt, c⟩
  · exact Or.inr ⟨rfl, _, rfl⟩
  · rcases fnOpt with _ | fn
    · exact Or.inr ⟨rfl, _, rfl⟩
    · by_cases hf : fn = ""
      · subst hf
        exact Or.inr ⟨rfl, _, rfl⟩
      · by_cases hs : isFileSupported fn = true
        · left
          simp [validate_document, hf, hs]
        · right
          simp [validate_document, hf, hs]

/-- C6: a null upload and an empty or absent filename give exactly the
documented invalid response; the returned `is_valid` is true precisely
when the filename is present and its extension supported; and the result
never depends on the upload's content. -/
theorem C6_validate_contract :
    (validate_document none =
      { is_valid := false, filename := none, is_supported_format := none
        error := some "File must be provided with a valid filename." }) ∧
    (∀ c : Bytes,
      validate_document (some ⟨none, c⟩) =
        { is_valid := false, filename := none, is_supported_format := none
          error := some "File must be provided with a valid filename." } ∧
      validate_document (some ⟨some "", c⟩) =
        { is_valid := false, filename := none, is_supported_format := none
          error := some "File must be provided with a valid filename." }) ∧
    (∀ (fnOpt : Option String) (c c' : Bytes),
      validate_document (some ⟨fnOpt, c⟩) = validate_document (some ⟨fnOpt, c'⟩)) ∧
    (∀ (fnOpt : Option String) (c : Bytes),
      (validate_document (some ⟨fnOpt, c⟩)).is_valid =
        (fnOpt.elim false (fun fn => !(fn == "") && isFileSupported fn))) := by
  refine ⟨rfl, fun c => ⟨rfl, rfl⟩, fun fnOpt c c' => ?_, fun fnOpt c => ?_⟩
  · rcases fnOpt with _ | fn <;> rfl
  · rcases fnOpt with _ | fn
    · rfl
    · by_cases hf : fn = ""
      · subst hf; rfl
      · simp [validate_document, hf]

/-- C8: `validate_document` never reads the upload's content (its result
is independent of the content), and `process_document` performs no stream
operation at all — the state is returned unchanged — when the presence
check or the extension check fails. -/
theorem C8_no_read_before_checks :
    (∀ (fnOpt : Option String) (c c' : Bytes),
      validate_document (some ⟨fnOpt, c⟩) = validate_document (some ⟨fnOpt, c'⟩)) ∧
    (∀ (file : Option UploadFile) (rb1 rb2 : ReadBehavior) (conv : Converter) (st : StreamState),
      (file = none ∨ (∃ c, file = some ⟨none, c⟩) ∨ (∃ c, file = some ⟨some "", c⟩)) →
        (process_document file rb1 rb2 conv st).2 = st) ∧
    (∀ (fn : String) (c : Bytes) (rb1 rb2 : ReadBehavior) (conv : Converter) (st : StreamState),
      fn ≠ "" → isFileSupported fn = false →
        (process_document (some ⟨some fn, c⟩) rb1 rb2 conv st).2 = st) := by
  refine ⟨fun fnOpt c c' => ?_, fun file rb1 rb2 conv st h => ?_, fun fn c rb1 rb2 conv st h1 h2 => ?_⟩
  · rcases fnOpt with _ | fn <;> rfl
  · rw [process_presence_fail file h rb1 rb2 conv st]
  · rw [process_unsupported fn c h1 h2 rb1 rb2 conv st]

/-- C8 witness: concrete unchanged states for an absent file and for an
unsupported extension. -/
theorem C8_no_read_before_checks_witness :
    (process_document none .ok .ok (fun _ _ => .noResult) ⟨3, 4, 5⟩).2 = ⟨3, 4, 5⟩ ∧
    (process_document (some ⟨some "image.jpg", [9]⟩) .ok .ok (fun _ _ => .noResult) ⟨3, 4, 5⟩).2 = ⟨3, 4, 5⟩ :=
  ⟨C8_no_read_before_checks.2.1 none .ok .ok (fun _ _ => .noResult) ⟨3, 4, 5⟩ (Or.inl rfl),
   C8_no_read_before_checks.2.2 "image.jpg" [9] .ok .ok (fun _ _ => .noResult) ⟨3, 4, 5⟩
     (by decide) (by decide)⟩

/-- C2 counterexample: the filename ".pdf".  Its suffix after the final
dot is "pdf", which is in the registry as ".pdf", yet `validate_document`
reports it unsupported and `process_document` fails the extension check,
because `pathlib` gives a dotfile no suffix. -/
theorem C2_counterexample :
    specExtensionSupported ".pdf" = true ∧
    (validate_document (some ⟨some ".pdf", []⟩)).is_valid = false ∧
    (process_document (some ⟨some ".pdf", [1]⟩) .ok .ok (fun _ _ => .result "x") ⟨0, 0, 0⟩).1 =
      .error (.valueError ("Unsupported file format: . Supported formats: " ++
        ".doc, .docx, .htm, .html, .md, .pdf, .ppt, .pptx, .rtf, .txt, .xls, .xlsx")) :=
  ⟨by decide, by decide, by decide⟩

/-- C2 amended: for every upload whose filename is non-empty and whose
extension in the code's sense — the lowercase `pathlib` suffix, which is
empty when the name's only dot is its leading character or the name ends
with a dot — is in the Format Registry, `validate_document` returns
`is_valid = true` and `process_document` proceeds past the extension
check into the read/convert stage. -/
theorem C2_supported_extension (fn : String) (c : Bytes)
    (h1 : fn ≠ "") (h2 : isFileSupported fn = true) :
    (validate_document (some ⟨some fn, c⟩)).is_valid = true ∧
    ∀ (rb1 rb2 : ReadBehavior) (conv : Converter) (st : StreamState),
      process_document (some ⟨some fn, c⟩) rb1 rb2 conv st =
        afterExtensionCheck fn c rb1 rb2 conv st := by
  constructor
  · simp [validate_document, h1, h2]
  · intro rb1 rb2 conv st
    exact process_supported fn c h1 h2 rb1 rb2 conv st

/-- C2 witness: the mixed-case filename "Report.PDF" is accepted. -/
theorem C2_supported_extension_witness :
    (validate_document (some ⟨some "Report.PDF", [7]⟩)).is_valid = true :=
  (C2_supported_extension "Report.PDF" [7] (by decide) (by decide)).1

/-- String concatenation is associative (needed to exhibit substrings of
the size-error message). -/
theorem strAppend_assoc (a b c : String) : a ++ b ++ c = a ++ (b ++ c) := by
  cases a with
  | mk xs =>
    cases b with
    | mk ys =>
      cases c with
      | mk zs =>
        show String.mk ((xs ++ ys) ++ zs) = String.mk (xs ++ (ys ++ zs))
        rw [List.append_assoc]

/-- C3: with a supported filename and a succeeding step-3 read, write L
for the length of the content read.  L = 0 fails with the empty-content
InvalidInput; L > 10485760 fails with an InvalidInput whose message
contains both L and 10485760; and 0 < L ≤ 10485760 passes the
empty-content and size checks, handing control to the conversion stage. -/
theorem C3_content_checks (fn : String) (c : Bytes) (rb2 : ReadBehavior)
    (conv : Converter) (st : StreamState)
    (h1 : fn ≠ "") (h2 : isFileSupported fn = true) :
    ((c.drop st.pos).length = 0 →
      process_document (some ⟨some fn, c⟩) .ok rb2 conv st =
        (.error (.valueError "File content is empty."), ⟨0, st.reads + 1, st.seeks + 1⟩)) ∧
    (10485760 < (c.drop st.pos).length →
      ∃ msg,
        process_document (some ⟨some fn, c⟩) .ok rb2 conv st =
          (.error (.valueError msg), ⟨0, st.reads + 1, st.seeks + 1⟩) ∧
        (∃ a b, msg = a ++ toString (c.drop st.pos).length ++ b) ∧
        (∃ a b, msg = a ++ "10485760" ++ b)) ∧
    ((c.drop st.pos).length ≠ 0 → (c.drop st.pos).length ≤ 10485760 →
      process_document (some ⟨some fn, c⟩) .ok rb2 conv st =
        convertStage fn c (c.drop st.pos) rb2 conv ⟨0, st.reads + 1, st.seeks + 1⟩) := by
  have hmax : MAX_FILE_SIZE = 10485760 := by decide
  have hmaxStr : toString MAX_FILE_SIZE = "10485760" := by decide
  refine ⟨fun h0 => ?_, fun hL => ?_, fun h0 hL => ?_⟩
  · rw [process_supported fn c h1 h2, afterExt_empty fn c rb2 conv st h0]
  · have hL' : MAX_FILE_SIZE < (c.drop st.pos).length := by omega
    refine ⟨"File size (" ++ toString (c.drop st.pos).length ++
        " bytes) exceeds maximum allowed size (" ++ toString MAX_FILE_SIZE ++ " bytes).",
      ?_, ?_, ?_⟩
    · rw [process_supported fn c h1 h2, afterExt_tooLarge fn c rb2 conv st hL']
    · refine ⟨"File size (",
        " bytes) exceeds maximum allowed size (10485760 bytes).", ?_⟩
      rw [hmaxStr]
      simp only [strAppend_assoc]
      have : " bytes) exceeds maximum allowed size (" ++ ("10485760" ++ " bytes).") =
          " bytes) exceeds maximum allowed size (10485760 bytes)." := by decide
      rw [this]
    · refine ⟨"File size (" ++ toString (c.drop st.pos).length ++
        " bytes) exceeds maximum allowed size (", " bytes).", ?_⟩
      rw [hmaxStr]
  · have hL' : ¬ MAX_FILE_SIZE < (c.drop st.pos).length := by omega
    rw [process_supported fn c h1 h2,
        afterExt_toConvert fn c rb2 conv st h0 (by omega)]

/-- C3 witness: a one-byte "a.txt" upload passes both checks and reaches
the conversion stage. -/
theorem C3_content_checks_witness :
    process_document (some ⟨some "a.txt", [104]⟩) .ok .ok (fun _ _ => .noResult) ⟨0, 0, 0⟩ =
      convertStage "a.txt" [104] [104] .ok (fun _ _ => .noResult) ⟨0, 1, 1⟩ :=
  (C3_content_checks "a.txt" [104] .ok (fun _ _ => .noResult) ⟨0, 0, 0⟩
    (by decide) (by decide)).2.2 (by decide) (by decide)

/-- C5 counterexample: the registry's sorted order puts ".htm" before
".html" (a prefix sorts first), so the message differs from the order the
claim lists. -/
theorem C5_counterexample :
    (validate_document (some ⟨some "image.jpg", [1]⟩)).error =
      some ("Unsupported file format. Supported formats: " ++
        ".doc, .docx, .htm, .html, .md, .pdf, .ppt, .pptx, .rtf, .txt, .xls, .xlsx") ∧
    (validate_document (some ⟨some "image.jpg", [1]⟩)).error ≠
      some ("Unsupported file format. Supported formats: " ++
        ".doc, .docx, .html, .htm, .md, .pdf, .ppt, .pptx, .rtf, .txt, .xls, .xlsx") :=
  ⟨by decide, by decide⟩

/-- C5 amended: for every filename with an unsupported extension,
`validate_document` and `process_document` report the unsupported-format
condition with the same lexicographically sorted registry list — ".doc,
.docx, .htm, .html, .md, .pdf, .ppt, .pptx, .rtf, .txt, .xls, .xlsx" —
and on "image.jpg" `validate_document` returns exactly the documented
response with that list. -/
theorem C5_same_sorted_list :
    (validate_document (some ⟨some "image.jpg", [1]⟩) =
      { is_valid := false, filename := some "image.jpg", is_supported_format := some false
        error := some ("Unsupported file format. Supported formats: " ++
          ".doc, .docx, .htm, .html, .md, .pdf, .ppt, .pptx, .rtf, .txt, .xls, .xlsx") }) ∧
    (∀ (fn : String) (c : Bytes) (rb1 rb2 : ReadBehavior) (conv : Converter) (st : StreamState),
      fn ≠ "" → isFileSupported fn = false →
        (validate_document (some ⟨some fn, c⟩)).error =
          some ("Unsupported file format. Supported formats: " ++
            joinWith ", " get_supported_extensions) ∧
        (process_document (some ⟨some fn, c⟩) rb1 rb2 conv st).1 =
          .error (.valueError ("Unsupported file format: " ++
            String.mk (lowerChars (pathSuffix fn)) ++ ". Supported formats: " ++
            joinWith ", " get_supported_extensions)) ∧
        joinWith ", " get_supported_extensions =
          ".doc, .docx, .htm, .html, .md, .pdf, .ppt, .pptx, .rtf, .txt, .xls, .xlsx") := by
  refine ⟨by decide, fun fn c rb1 rb2 conv st h1 h2 => ⟨?_, ?_, by decide⟩⟩
  · simp [validate_document, h1, h2]
  · rw [process_unsupported fn c h1 h2 rb1 rb2 conv st]
    rfl

/-- C5 witness: both operations on the unsupported "archive.zip" embed
the same sorted list in their messages. -/
theorem C5_same_sorted_list_witness :
    (validate_document (some ⟨some "archive.zip", [5]⟩)).error =
      some ("Unsupported file format. Supported formats: " ++
        joinWith ", " get_supported_extensions) :=
  ((C5_same_sorted_list).2 "archive.zip" [5] .ok .ok (fun _ _ => .noResult) ⟨0, 0, 0⟩
    (by decide) (by decide)).1

/-- C1 counterexample: with valid input ("a.txt", one byte), a
whitespace-only converter text " " does not fail at all — the emptiness
test only catches a falsy `text_content` — and the run returns the
stripped (empty) markdown; an empty text fails with the wrapped message
"Error during conversion: Conversion resulted in empty content.", not the
bare "Conversion resulted in empty content." the claim states. -/
theorem C1_counterexample :
    (process_document (some ⟨some "a.txt", [104]⟩) .ok .ok
        (fun _ _ => .result " ") ⟨0, 0, 0⟩).1 =
      .ok { markdown := ""
            metadata := { filename := "a.txt", size_bytes := 1, size_mb := sizeMB 1
                          file_extension := "txt", is_supported := true } } ∧
    (process_document (some ⟨some "a.txt", [104]⟩) .ok .ok
        (fun _ _ => .result "") ⟨0, 0, 0⟩).1 =
      .error (.exception "Error during conversion: Conversion resulted in empty content.") ∧
    DocError.exception "Error during conversion: Conversion resulted in empty content." ≠
      DocError.exception "Conversion resulted in empty content." :=
  ⟨by decide, by decide, by decide⟩

/-- C1 amended: under valid input (supported non-empty filename, non-empty
in-limit content read), a falsy converter result or an empty text body
fails with ConversionFailure "Error during conversion: Conversion resulted
in empty content." — the inner empty-content exception is re-wrapped by
its own handler; a converter exception with cause c fails with
ConversionFailure "Error during conversion: c"; and a non-empty text body,
whitespace-only included, passes the emptiness test: with a succeeding
metadata re-read the run returns the stripped text. -/
theorem C1_conversion_failures (fn : String) (c : Bytes) (rb2 : ReadBehavior)
    (conv : Converter) (st : StreamState)
    (h1 : fn ≠ "") (h2 : isFileSupported fn = true)
    (h0 : (c.drop st.pos).length ≠ 0)
    (hsize : (c.drop st.pos).length ≤ MAX_FILE_SIZE) :
    (conv fn (c.drop st.pos) = .noResult →
      (process_document (some ⟨some fn, c⟩) .ok rb2 conv st).1 =
        .error (.exception "Error during conversion: Conversion resulted in empty content.")) ∧
    (conv fn (c.drop st.pos) = .result "" →
      (process_document (some ⟨some fn, c⟩) .ok rb2 conv st).1 =
        .error (.exception "Error during conversion: Conversion resulted in empty content.")) ∧
    (∀ m, conv fn (c.drop st.pos) = .raises m →
      (process_document (some ⟨some fn, c⟩) .ok rb2 conv st).1 =
        .error (.exception ("Error during conversion: " ++ m))) ∧
    (∀ t, conv fn (c.drop st.pos) = .result t → t ≠ "" →
      (process_document (some ⟨some fn, c⟩) .ok .ok conv st).1 =
        .ok { markdown := pyStrip t
              metadata := { filename := fn
                            size_bytes := c.length
                            size_mb := sizeMB c.length
                            file_extension := metaExtension fn
                            is_supported := isFileSupported fn } }) := by
  refine ⟨fun hc => ?_, fun hc => ?_, fun m hc => ?_, fun t hc ht => ?_⟩
  · rw [process_supported fn c h1 h2, afterExt_toConvert fn c rb2 conv st h0 hsize,
        convertStage_noResult fn c _ rb2 conv _ hc]
  · rw [process_supported fn c h1 h2, afterExt_toConvert fn c rb2 conv st h0 hsize,
        convertStage_emptyText fn c _ rb2 conv _ hc]
  · rw [process_supported fn c h1 h2, afterExt_toConvert fn c rb2 conv st h0 hsize,
        convertStage_raises fn c _ m rb2 conv _ hc]
  · rw [process_supported fn c h1 h2, afterExt_toConvert fn c .ok conv st h0 hsize,
        convertStage_success fn c _ t conv _ hc ht]
    simp

/-- C1 witness: a throwing converter yields the wrapped cause. -/
theorem C1_conversion_failures_witness :
    (process_document (some ⟨some "a.txt", [104]⟩) .ok .ok
        (fun _ _ => .raises "kaboom") ⟨0, 0, 0⟩).1 =
      .error (.exception ("Error during conversion: " ++ "kaboom")) :=
  (C1_conversion_failures "a.txt" [104] .ok (fun _ _ => .raises "kaboom") ⟨0, 0, 0⟩
    (by decide) (by decide) (by decide) (by decide)).2.2.1 "kaboom" rfl

/-- C7: whenever `process_document` succeeds, the returned metadata is
derived from the full upload content and the filename: `size_bytes` is the
content length, `size_mb` is `size_bytes / 2^20` rounded half-to-even to
two decimal places, `file_extension` is the lowercase part of the filename
after its last dot (empty if the filename has no dot), and `is_supported`
is the same `_is_file_supported` check validation uses. -/
theorem C7_metadata (fn : String) (c : Bytes) (rb1 rb2 : ReadBehavior)
    (conv : Converter) (st st' : StreamState) (resp : ProcessDocumentResponse)
    (h : process_document (some ⟨some fn, c⟩) rb1 rb2 conv st = (.ok resp, st')) :
    resp.metadata.filename = fn ∧
    resp.metadata.size_bytes = c.length ∧
    resp.metadata.size_mb = round2 ((c.length : ℚ) / (1024 * 1024)) ∧
    resp.metadata.file_extension = metaExtension fn ∧
    resp.metadata.is_supported = isFileSupported fn := by
  by_cases h1 : fn = ""
  · subst h1
    rw [process_presence_fail _ (Or.inr (Or.inr ⟨c, rfl⟩)) rb1 rb2 conv st] at h
    simp at h
  by_cases h2 : isFileSupported fn = true
  · rw [process_supported fn c h1 h2] at h
    cases rb1 with
    | err m =>
      rw [afterExt_readErr] at h
      simp at h
    | ok =>
      by_cases h0 : (c.drop st.pos).length = 0
      · rw [afterExt_empty fn c rb2 conv st h0] at h
        simp at h
      by_cases hL : MAX_FILE_SIZE < (c.drop st.pos).length
      · rw [afterExt_tooLarge fn c rb2 conv st hL] at h
        simp at h
      · rw [afterExt_toConvert fn c rb2 conv st h0 (by omega)] at h
        rcases hc : conv fn (c.drop st.pos) with t | _ | m
        · by_cases ht : t = ""
          · subst ht
            rw [convertStage_emptyText fn c _ rb2 conv _ hc] at h
            simp at h
          · cases rb2 with
            | err m2 =>
              rw [convertStage_metadataErr fn c _ t m2 conv _ hc ht] at h
              simp at h
            | ok =>
              rw [convertStage_success fn c _ t conv _ hc ht] at h
              simp only [Prod.mk.injEq, Except.ok.injEq] at h
              obtain ⟨hresp, hst⟩ := h
              subst hresp
              refine ⟨rfl, by simp, ?_, rfl, rfl⟩
              simp only [List.drop_zero]
              exact sizeMB_eq_round2 c.length
        · rw [convertStage_noResult fn c _ rb2 conv _ hc] at h
          simp at h
        · rw [convertStage_raises fn c _ m rb2 conv _ hc] at h
          simp at h
  · rw [process_unsupported fn c h1 (by simpa using h2) rb1 rb2 conv st] at h
    simp at h

/-- C7 witness: a successful run on "report.pdf" with three bytes. -/
theorem C7_metadata_witness :
    ∃ (resp : ProcessDocumentResponse) (st' : StreamState),
      process_document (some ⟨some "report.pdf", [1, 2, 3]⟩) .ok .ok
          (fun _ _ => .result "# Report") ⟨0, 0, 0⟩ = (.ok resp, st') ∧
      resp.metadata.size_bytes = ([1, 2, 3] : Bytes).length ∧
      resp.metadata.file_extension = metaExtension "report.pdf" := by
  refine ⟨{ markdown := "# Report"
            metadata := { filename := "report.pdf", size_bytes := 3, size_mb := sizeMB 3
                          file_extension := "pdf", is_supported := true } },
          ⟨0, 2, 2⟩, by decide, ?_, ?_⟩
  · exact (C7_metadata "report.pdf" [1, 2, 3] .ok .ok (fun _ _ => .result "# Report")
      ⟨0, 0, 0⟩ ⟨0, 2, 2⟩ _ (by decide)).2.1
  · exact (C7_metadata "report.pdf" [1, 2, 3] .ok .ok (fun _ _ => .result "# Report")
      ⟨0, 0, 0⟩ ⟨0, 2, 2⟩ _ (by decide)).2.2.2.1

/-- C10: metadata assembly runs inside the conversion handler.  When every
validation passes and the converter returns non-empty text but the
metadata re-read throws with cause c, the run fails with ConversionFailure
"Error during conversion: c" — not the step-3 message
"Error reading file: c" — and no stream reset follows the failed re-read:
the final state records exactly one seek (the step-3 `finally`), two
attempted reads, and position 0. -/
theorem C10_metadata_error_wrap (fn : String) (c : Bytes)
    (conv : Converter) (st : StreamState) (t m : String)
    (h1 : fn ≠ "") (h2 : isFileSupported fn = true)
    (h0 : (c.drop st.pos).length ≠ 0)
    (hsize : (c.drop st.pos).length ≤ MAX_FILE_SIZE)
    (hc : conv fn (c.drop st.pos) = .result t) (ht : t ≠ "") :
    process_document (some ⟨some fn, c⟩) .ok (.err m) conv st =
      (.error (.exception ("Error during conversion: " ++ m)),
       ⟨0, st.reads + 2, st.seeks + 1⟩) ∧
    ("Error during conversion: " ++ m) ≠ ("Error reading file: " ++ m) := by
  constructor
  · rw [process_supported fn c h1 h2, afterExt_toConvert fn c (.err m) conv st h0 hsize,
        convertStage_metadataErr fn c _ t m conv _ hc ht]
  · intro heq
    have hlen := congrArg String.length heq
    have e1 : ("Error during conversion: " ++ m).length = 25 + m.length := by
      have : ("Error during conversion: ").length = 25 := by decide
      simp [String.length_append, this]
    have e2 : ("Error reading file: " ++ m).length = 20 + m.length := by
      have : ("Error reading file: ").length = 20 := by decide
      simp [String.length_append, this]
    rw [e1, e2] at hlen
    omega

/-- C10 witness: a concrete failing metadata re-read. -/
theorem C10_metadata_error_wrap_witness :
    process_document (some ⟨some "a.txt", [104]⟩) .ok (.err "disk gone")
        (fun _ _ => .result "# hi") ⟨0, 0, 0⟩ =
      (.error (.exception ("Error during conversion: " ++ "disk gone")), ⟨0, 2, 1⟩) :=
  (C10_metadata_error_wrap "a.txt" [104] (fun _ _ => .result "# hi") ⟨0, 0, 0⟩
    "# hi" "disk gone" (by decide) (by decide) (by decide) (by decide) rfl (by decide)).1

end DocDrip
